import Mathlib

/-!
Shallow embedding of the PR-review pipeline of `github_ai_coder`
(`src/lambda/utils.py`, `src/lambda/handler.py`, `src/lambda/api_handler.py`).

The repository contains two divergent implementations of the review
pipeline: module `utils.py` and module `handler.py` each define
`fetch_pr_changes`, `generate_review_with_bedrock` and
`post_review_comments`.  Both are embedded below, in namespaces `Utils`
and `Handler` mirroring the module names.  External effects (Bedrock
inference, GitHub API calls, Step Functions) are passed in as explicit
oracle arguments; all pure control flow is translated from the Python
source.  Python dicts with a fixed set of read keys are translated to
structures of `Option` fields (`none` = key absent); Python truthiness
of a string-or-absent value is `truthyOptStr`.
-/

deriving instance DecidableEq for Except

namespace GithubAICoder

/-- Python truthiness of an optional string value: `None` and the empty
string are falsy, any non-empty string is truthy. -/
def truthyOptStr : Option String → Bool
  | none => false
  | some s => s != ""

/-- Constant `BEDROCK_MODEL_ID` (identical in both modules). -/
def BEDROCK_MODEL_ID : String := "anthropic.claude-3-5-sonnet-20240620-v1:0"

/-- Python `str.strip()`: remove leading and trailing whitespace.
Defined over the character list so that it reduces in the kernel
(`String.trim` does not). -/
def pyStrip (s : String) : String :=
  ⟨((s.data.dropWhile Char.isWhitespace).reverse.dropWhile
      Char.isWhitespace).reverse⟩

/-- A file-change dict as consumed by the review generators: the keys the
generators read (`filename`, `status`, `patch`), each possibly absent.
Other keys (`additions`, `deletions`, `changes`) are never read by the
generators and are omitted here; `ChangeData` below keeps them for the
fetcher. -/
structure Change where
  filename : Option String
  status : Option String
  patch : Option String
deriving Repr, DecidableEq

/-- A review-result dict: the union of the key sets produced by the two
generator implementations (`file`, `review`, `error`, `status`, `model`),
each possibly absent. -/
structure ReviewResult where
  file : Option String
  review : Option String
  error : Option String
  status : Option String
  model : Option String
deriving Repr, DecidableEq

/-- One element of the `content` array of a parsed Bedrock response body,
a dict whose keys `type` and `text` may be absent. -/
structure ContentPart where
  ptype : Option String
  ptext : Option String
deriving Repr, DecidableEq

/-- Outcome of one `bedrock.invoke_model` call together with the reading
and JSON-parsing of its body, as seen by the caller: an AWS SDK
exception (`BotoCoreError`/`ClientError`), a JSON decode failure of the
response body, some other unexpected exception, or a parsed payload
whose `content` key may be absent. -/
inductive BedrockResult where
  | awsError (msg : String)
  | jsonError (msg : String)
  | otherError (msg : String)
  | payload (content : Option (List ContentPart))
deriving Repr, DecidableEq

/-- The spec's ReviewResult invariant (spec section 3): status is one of
`succeeded`, `failed`, `skipped`; `review` is present iff the status is
`succeeded`; `error` is present iff the status is `failed` or
`skipped`. -/
def WF (r : ReviewResult) : Prop :=
  (r.status = some "succeeded" ∨ r.status = some "failed" ∨ r.status = some "skipped") ∧
  (r.review.isSome ↔ r.status = some "succeeded") ∧
  (r.error.isSome ↔ (r.status = some "failed" ∨ r.status = some "skipped"))

namespace Utils

/-- Text extraction from the Bedrock payload in
`utils.generate_review_with_bedrock`: concatenate `part.text` over the
parts whose `type` is `text` and whose `text` is present and non-empty
(`part.get('type') == 'text' and part.get('text')`). -/
def extractText (parts : List ContentPart) : String :=
  parts.foldl
    (fun acc part =>
      if part.ptype == some "text" && truthyOptStr part.ptext then
        acc ++ part.ptext.getD ""
      else acc) ""

/-- Body of one iteration of the loop of
`utils.generate_review_with_bedrock` (lines 125-204 of
`src/lambda/utils.py`), for the change at 1-based position `idx` given
the outcome `br` of the Bedrock call that iteration would make.  The
second component records whether `bedrock.invoke_model` was actually
invoked (ghost instrumentation; the source only appends the dict). -/
def processChange (br : BedrockResult) (idx : Nat) (change : Change) :
    ReviewResult × Bool :=
  let filename := change.filename.getD ("file_" ++ toString idx)
  if truthyOptStr change.patch = false then
    ({ file := some filename, review := none,
       error := some "no patch content",
       status := some "skipped", model := none }, false)
  else
    match br with
    | .awsError m =>
        ({ file := some filename, review := none,
           error := some ("Bedrock SDK error for " ++ filename ++ ": " ++ m),
           status := some "failed", model := none }, true)
    | .jsonError m =>
        ({ file := some filename, review := none,
           error := some ("Invalid response format for " ++ filename ++ ": " ++ m),
           status := some "failed", model := none }, true)
    | .otherError m =>
        ({ file := some filename, review := none,
           error := some ("Unexpected error for " ++ filename ++ ": " ++ m),
           status := some "failed", model := none }, true)
    | .payload content =>
        let text := extractText (content.getD [])
        if pyStrip text = "" then
          -- raise ValueError("Empty review text from Bedrock"), caught by
          -- the (json.JSONDecodeError, ValueError) handler
          ({ file := some filename, review := none,
             error := some ("Invalid response format for " ++ filename ++
                            ": Empty review text from Bedrock"),
             status := some "failed", model := none }, true)
        else
          ({ file := some filename, review := some (pyStrip text), error := none,
             status := some "succeeded", model := some BEDROCK_MODEL_ID }, true)

/-- The enumeration loop of `utils.generate_review_with_bedrock`, with
`k` the 1-based counter of `enumerate(changes, start=1)`.  Each
iteration appends exactly one review dict. -/
def genGo (oracle : Nat → BedrockResult) (k : Nat) : List Change → List ReviewResult
  | [] => []
  | c :: cs => (processChange (oracle k) k c).1 :: genGo oracle (k + 1) cs

/-- `utils.generate_review_with_bedrock(changes)` (lines 112-210 of
`src/lambda/utils.py`).  The Bedrock call of the iteration at 1-based
position `k` is modelled by `oracle k`.  The early return on an empty
`changes` list and the loop both yield `[]` on `[]`. -/
def generate_review_with_bedrock (oracle : Nat → BedrockResult)
    (changes : List Change) : List ReviewResult :=
  genGo oracle 1 changes

end Utils

namespace Handler

/-- Text extraction from the Bedrock payload in
`handler.generate_review_with_bedrock` (lines 177-180 of
`src/lambda/handler.py`): `review_text += content['text'] + "\n"` for
each part whose `type` is `text`.  Direct subscripting means a missing
`type` or `text` key raises `KeyError`, caught by the generic handler;
the error value carries the missing key name. -/
def extractTextGo (acc : String) : List ContentPart → Except String String
  | [] => .ok acc
  | p :: ps =>
    match p.ptype with
    | none => .error "KeyError type"
    | some t =>
      if t = "text" then
        match p.ptext with
        | none => .error "KeyError text"
        | some s => extractTextGo (acc ++ s ++ "\n") ps
      else extractTextGo acc ps

/-- A review dict recording an exception caught by the per-file generic
handler of `handler.generate_review_with_bedrock` (lines 202-209). -/
def failedEntry (filename m : String) : ReviewResult :=
  { file := some filename, review := none,
    error := some ("Unexpected error processing " ++ filename ++ ": " ++ m),
    status := some "failed", model := none }

/-- Body of one iteration of the loop of
`handler.generate_review_with_bedrock` (lines 127-209 of
`src/lambda/handler.py`), for the change at 1-based position `index`
given the outcome `br` of the Bedrock call that iteration would make.
Returns `none` when the iteration appends nothing (`continue` on a
missing or falsy patch, line 135-137).  The second component records
whether `bedrock.invoke_model` was invoked. -/
def processChange (br : BedrockResult) (index : Nat) (change : Change) :
    Option ReviewResult × Bool :=
  let filename := change.filename.getD ("unknown_file_" ++ toString index)
  if truthyOptStr change.patch = false then
    (none, false)
  else
    match br with
    | .awsError m =>
        (some { file := some filename, review := none,
                error := some ("Bedrock API error for " ++ filename ++ ": " ++ m),
                status := some "failed", model := none }, true)
    | .jsonError m => (some (failedEntry filename m), true)
    | .otherError m => (some (failedEntry filename m), true)
    | .payload content =>
        -- if not response_body.get('content'): raise PRReviewError(...)
        match content with
        | none => (some (failedEntry filename "No content in Bedrock response"), true)
        | some [] => (some (failedEntry filename "No content in Bedrock response"), true)
        | some parts =>
          match extractTextGo "" parts with
          | .error ke => (some (failedEntry filename ke), true)
          | .ok text =>
            if pyStrip text = "" then
              (some (failedEntry filename "Empty review content from Bedrock"), true)
            else
              (some { file := some filename, review := some (pyStrip text),
                      error := none,
                      status := some (change.status.getD "reviewed"),
                      model := some BEDROCK_MODEL_ID }, true)

/-- The enumeration loop of `handler.generate_review_with_bedrock`,
`k` being the 1-based counter of `enumerate(changes, start=1)`.  An
iteration that hits `continue` appends nothing.  (The `continue` for a
non-dict change is outside this embedding, whose change lists hold
dicts only, matching what `fetch_pr_changes` produces.) -/
def genGo (oracle : Nat → BedrockResult) (k : Nat) : List Change → List ReviewResult
  | [] => []
  | c :: cs =>
    match (processChange (oracle k) k c).1 with
    | none => genGo oracle (k + 1) cs
    | some r => r :: genGo oracle (k + 1) cs

/-- The value found at the key `changes` of a dict argument. -/
inductive ChangesVal where
  | list (cs : List Change)
  | nonList
deriving Repr, DecidableEq

/-- The `changes_data` argument of `handler.generate_review_with_bedrock`
after the input dispatch of lines 103-119: a dict whose `changes` key
may be absent (a JSON string that parses to such a dict behaves the
same), a string that fails JSON parsing, a Python list, or any other
type.  Everything except a dict carrying a list yields `[]`. -/
inductive ChangesData where
  | dict (changes : Option ChangesVal)
  | strBadJson
  | listInput
  | otherInput
deriving Repr, DecidableEq

/-- `handler.generate_review_with_bedrock(changes_data)` (lines 98-220
of `src/lambda/handler.py`).  The Bedrock call of the iteration at
1-based position `k` is modelled by `oracle k`.  The catastrophic
outer handler (lines 215-220) is unreachable in this embedding, whose
per-iteration exceptions are all caught by the inner handlers. -/
def generate_review_with_bedrock (oracle : Nat → BedrockResult)
    (changes_data : ChangesData) : List ReviewResult :=
  match changes_data with
  | .dict (some (.list cs)) =>
      -- `if not changes: return reviews` collapses with the loop on []
      genGo oracle 1 cs
  | .dict (some .nonList) => []   -- "Changes should be a list"
  | .dict none => []              -- .get('changes', []) default, then empty
  | .strBadJson => []             -- JSONDecodeError handler returns []
  | .listInput => []              -- "Unexpected input type"
  | .otherInput => []

end Handler

/-- A `PullRequestFile` as delivered by the provider (`pr.get_files()`):
the attributes `handler.fetch_pr_changes` reads.  `patch` is `None` for
binary files and may in principle be empty. -/
structure PRFile where
  filename : String
  status : String
  additions : Int
  deletions : Int
  changes : Int
  patch : Option String
deriving Repr, DecidableEq

/-- The `change_data` dict built by `handler.fetch_pr_changes` (lines
70-82 of `src/lambda/handler.py`): five mandatory keys, plus `patch`
only when `file.patch` is truthy. -/
structure ChangeData where
  filename : String
  status : String
  additions : Int
  deletions : Int
  changes : Int
  patch : Option String
deriving Repr, DecidableEq

/-- A GitHub-client exception as seen by the callers: a
`GithubException` or any other exception. -/
inductive GhExc where
  | githubException (msg : String)
  | otherException (msg : String)
deriving Repr, DecidableEq

namespace Handler

/-- Construction of one `change_data` dict from a provider file (lines
70-82): the `patch` key is included only if `file.patch` is truthy
(non-`None` and non-empty). -/
def mkChangeData (f : PRFile) : ChangeData :=
  { filename := f.filename, status := f.status, additions := f.additions,
    deletions := f.deletions, changes := f.changes,
    patch := if truthyOptStr f.patch then f.patch else none }

/-- `handler.fetch_pr_changes(repo_name, pr_number, owner)` (lines
57-95 of `src/lambda/handler.py`).  `getRepo` models
`github.get_repo(...)` and `getPull` models `repo.get_pull(pr_number)`
together with `pr.get_files()`; the function performs `int(pr_number)`
(identity on an integer argument) and no other validation of
`pr_number`.  A `GithubException` or any other exception from the
provider is re-raised as `PRReviewError` with the message built at
lines 88-95; the error value is that message. -/
def fetch_pr_changes (getRepo : Except GhExc Unit)
    (getPull : Int → Except GhExc (List PRFile))
    (_repo_name : String) (pr_number : Int) (_owner : String) :
    Except String (List ChangeData) :=
  match getRepo with
  | .error (.githubException m) =>
      .error ("GitHub API error fetching PR changes: " ++ m)
  | .error (.otherException m) =>
      .error ("Unexpected error fetching PR changes: " ++ m)
  | .ok _ =>
    match getPull pr_number with
    | .error (.githubException m) =>
        .error ("GitHub API error fetching PR changes: " ++ m)
    | .error (.otherException m) =>
        .error ("Unexpected error fetching PR changes: " ++ m)
    | .ok files => .ok (files.map mkChangeData)

/-- One element of the `reviews` list handed to
`handler.post_review_comments`: a dict, or any non-dict value (line
260-263 counts non-dicts as failed). -/
inductive ReviewEntry where
  | dict (r : ReviewResult)
  | nonDict
deriving Repr, DecidableEq

/-- The posting loop of `handler.post_review_comments` (lines 255-291
of `src/lambda/handler.py`).  `post i` models the
`pr.create_review(...)` call for the entry at 0-based position `i`;
every exception it raises is caught by the per-entry handlers, which
increment `failed_posts` and continue.  Returns
`(successful_posts, failed_posts, attempted)` where `attempted` is
ghost instrumentation listing the positions at which
`pr.create_review` was called. -/
def postLoop (post : Nat → Except GhExc Unit) :
    Nat → List ReviewEntry → Nat × Nat × List Nat
  | _, [] => (0, 0, [])
  | i, e :: rest =>
    let (s, f, a) := postLoop post (i + 1) rest
    match e with
    | .nonDict => (s, f + 1, a)
    | .dict r =>
      if r.error.isSome then (s, f + 1, a)             -- 'error' in review
      else if truthyOptStr r.review = false then (s, f + 1, a)
      else
        match post i with
        | .ok _ => (s + 1, f, i :: a)
        | .error _ => (s, f + 1, i :: a)

/-- The value found at the key `reviews` of a dict argument. -/
inductive ReviewsVal where
  | list (rs : List ReviewEntry)
  | nonList
deriving Repr, DecidableEq

/-- The `reviews_data` argument of `handler.post_review_comments` after
JSON parsing of string inputs (lines 230-247): a string failing to
parse, a string parsing to a dict, a string parsing to a non-dict
(yielding `[]`), a dict, a list, or any other type. -/
inductive ReviewsData where
  | strBad
  | strDict (reviews : Option ReviewsVal)
  | strNonDict
  | dict (reviews : Option ReviewsVal)
  | listD (rs : List ReviewEntry)
  | otherData
deriving Repr, DecidableEq

/-- The parsing stage of `handler.post_review_comments` (lines 229-247),
producing the `reviews` list or raising `PRReviewError`. -/
def parseReviews : ReviewsData → Except String (List ReviewEntry)
  | .strBad => .error "Invalid reviews format - could not parse JSON"
  | .strDict (some (.list rs)) => .ok rs
  | .strDict (some .nonList) => .error "Invalid reviews format - expected list"
  | .strDict none => .ok []          -- .get('reviews', [])
  | .strNonDict => .ok []            -- non-dict parse result yields []
  | .dict (some (.list rs)) => .ok rs
  | .dict (some .nonList) => .error "Invalid reviews format - expected list"
  | .dict none => .ok []
  | .listD rs => .ok rs
  | .otherData => .error "Invalid reviews format - expected list or dict"

/-- `PostingOutcome` dict returned by `handler.post_review_comments`
(lines 294-298); the `status` key is the constant `completed`. -/
structure PostOutcome where
  successful_posts : Nat
  failed_posts : Nat
deriving Repr, DecidableEq

/-- `handler.post_review_comments(repo_name, pr_number, owner,
reviews_data)` (lines 224-307 of `src/lambda/handler.py`): parse the
reviews payload, locate the pull request (`locate` models
`github.get_repo` plus `repo.get_pull`, lines 252-253, whose
exceptions reach the outer handlers at lines 300-307 and re-raise as
`PRReviewError`), then run the posting loop, which never raises. -/
def post_review_comments (locate : Except GhExc Unit)
    (post : Nat → Except GhExc Unit) (reviews_data : ReviewsData) :
    Except String PostOutcome :=
  match parseReviews reviews_data with
  | .error m => .error m
  | .ok reviews =>
    match locate with
    | .error (.githubException m) => .error ("GitHub API error: " ++ m)
    | .error (.otherException m) => .error ("Unexpected error: " ++ m)
    | .ok _ =>
      let (s, f, _) := postLoop post 0 reviews
      .ok { successful_posts := s, failed_posts := f }

end Handler

namespace Utils

/-- An exception escaping `utils.post_review_comments`: the
`PRReviewError` it raises itself, a `GithubException` from the GitHub
client (nothing in the function catches it), a `json.JSONDecodeError`
from `json.loads`, or the `TypeError` `json.loads` raises on non-string
input. -/
inductive UtilsExc where
  | prReviewError (msg : String)
  | githubException (msg : String)
  | jsonDecodeError
  | typeError
deriving Repr, DecidableEq

/-- The `reviews` argument of `utils.post_review_comments` as classified
by `json.loads` (line 220 of `src/lambda/utils.py`): a string parsing
to a dict with a `reviews` key, a string parsing to a list, a string
parsing to anything else, a string failing to parse, or a non-string
value. -/
inductive ReviewsDataU where
  | strDictReviews (rs : List ReviewResult)
  | strList (rs : List ReviewResult)
  | strOther
  | strBad
  | nonStr
deriving Repr, DecidableEq

/-- The posting loop of `utils.post_review_comments` (lines 228-235 of
`src/lambda/utils.py`).  There is no per-entry exception handler: an
exception from `pr.create_review` (modelled by `post i`) propagates and
aborts the loop, discarding the tally. -/
def postLoop (post : Nat → Except UtilsExc Unit) :
    Nat → List ReviewResult → Except UtilsExc (Nat × Nat)
  | _, [] => .ok (0, 0)
  | i, r :: rest =>
    if r.error.isSome || !truthyOptStr r.review then
      (postLoop post (i + 1) rest).map (fun p => (p.1, p.2 + 1))
    else
      match post i with
      | .error e => .error e
      | .ok _ => (postLoop post (i + 1) rest).map (fun p => (p.1 + 1, p.2))

/-- `utils.post_review_comments(repo_name, pr_number, owner, reviews)`
(lines 214-235 of `src/lambda/utils.py`): initialize clients and locate
the pull request (`locate`; its exceptions propagate uncaught), parse
the payload with `json.loads`, dispatch on its shape, then run the
posting loop. -/
def post_review_comments (locate : Except UtilsExc Unit)
    (post : Nat → Except UtilsExc Unit) (reviews : ReviewsDataU) :
    Except UtilsExc (Nat × Nat) :=
  match locate with
  | .error e => .error e
  | .ok _ =>
    match reviews with
    | .strBad => .error .jsonDecodeError
    | .nonStr => .error .typeError
    | .strOther => .error (.prReviewError "Invalid reviews payload")
    | .strDictReviews rs => postLoop post 0 rs
    | .strList rs => postLoop post 0 rs

end Utils

namespace Handler

/-- An exception raised by a step function called from
`handler.lambda_handler`: the repository's `PRReviewError` (line
393-398 maps it to statusCode 500) or any unexpected exception (line
399-404 maps it to statusCode 500 with body `Internal server error`). -/
inductive StepExc where
  | prReviewError (msg : String)
  | unexpected
deriving Repr, DecidableEq

/-- Outcomes of the three step functions, passed to the
`lambda_handler` embedding as oracles; an `.error` value models the
call raising the corresponding exception. -/
structure StepOracles where
  fetch : Except StepExc (List ChangeData)
  gen : Except StepExc (List ReviewResult)
  post : Except StepExc PostOutcome
deriving Repr, DecidableEq

/-- The value at the `changes` key of a step event, as far as the
truthiness test of line 350 (`not event['changes']`) observes it: a
string, a list of change dicts, a dict that contains a `changes` key,
or a dict that does not (`nonempty` records whether it has any key at
all). -/
inductive EventChanges where
  | str (s : String)
  | list (cs : List Change)
  | dictWithChanges
  | dictOther (nonempty : Bool)
deriving Repr, DecidableEq

/-- Python truthiness of an `EventChanges` value. -/
def truthyEventChanges : EventChanges → Bool
  | .str s => s != ""
  | .list cs => !cs.isEmpty
  | .dictWithChanges => true
  | .dictOther ne => ne

/-- A step-invocation event: the keys `handler.lambda_handler` reads,
each possibly absent.  The required-field checks of lines 330-331 and
365-366 test key presence only (`field in event`). -/
structure Event where
  action : Option String
  repository : Option String
  pull_request_number : Option Int
  owner : Option String
  changes : Option EventChanges
  review : Option ReviewsData
deriving Repr, DecidableEq

/-- The JSON body of a step response: `json.dumps({'error': msg})`,
`json.dumps({'changes': ...})`, `json.dumps({'reviews': ...})`, or the
constant `json.dumps({'status': 'success'})` of line 382. -/
inductive Body where
  | errorMsg (msg : String)
  | changes (cs : List ChangeData)
  | reviews (rs : List ReviewResult)
  | statusSuccess
deriving Repr, DecidableEq

/-- A `{statusCode, body}` step response. -/
structure Response where
  statusCode : Nat
  body : Body
deriving Repr, DecidableEq

/-- Ghost record of which step function `lambda_handler` invoked. -/
inductive StepCalled where
  | fetch
  | gen
  | post
deriving Repr, DecidableEq

/-- Mapping of a step outcome to a response, per the success branches
and the two exception handlers of `handler.lambda_handler` (lines
344-347, 359-362, 380-383, 393-404). -/
def stepResponse {α : Type} (onOk : α → Body) :
    Except StepExc α → Response
  | .ok x => { statusCode := 200, body := onOk x }
  | .error (.prReviewError m) => { statusCode := 500, body := .errorMsg m }
  | .error .unexpected =>
      { statusCode := 500, body := .errorMsg "Internal server error" }

/-- `handler.lambda_handler(event, context)` (lines 313-404 of
`src/lambda/handler.py`).  The step bodies are supplied as `o`; the
second component of the result is ghost instrumentation recording
which step function was invoked, if any. -/
def lambda_handler (o : StepOracles) (e : Event) :
    Response × Option StepCalled :=
  match e.action with
  | none =>
      ({ statusCode := 400, body := .errorMsg "No action specified in event" },
       none)
  | some a =>
    if a = "" then
      -- `if not action:` also fires on an empty-string action
      ({ statusCode := 400, body := .errorMsg "No action specified in event" },
       none)
    else if a = "fetch_changes" then
      if e.repository.isSome && e.pull_request_number.isSome && e.owner.isSome then
        (stepResponse Body.changes o.fetch, some .fetch)
      else
        ({ statusCode := 400,
           body := .errorMsg "Missing required fields for fetch_changes" }, none)
    else if a = "generate_review" then
      match e.changes with
      | none =>
          ({ statusCode := 400,
             body := .errorMsg "No changes provided for review generation" }, none)
      | some cv =>
        if truthyEventChanges cv = false then
          ({ statusCode := 400,
             body := .errorMsg "No changes provided for review generation" }, none)
        else
          (stepResponse Body.reviews o.gen, some .gen)
    else if a = "post_comments" then
      if e.repository.isSome && e.pull_request_number.isSome &&
          e.owner.isSome && e.review.isSome then
        -- the PostOutcome returned by post_review_comments is discarded:
        -- the body is the constant {'status': 'success'} (lines 374-383)
        (stepResponse (fun _ => Body.statusSuccess) o.post, some .post)
      else
        ({ statusCode := 400,
           body := .errorMsg "Missing required fields for post_comments" }, none)
    else
      ({ statusCode := 400, body := .errorMsg ("Unknown action: " ++ a) }, none)

end Handler

namespace ApiHandler

/-- The JSON body of a `POST /review` request: the keys
`api_handler.handle_review_request` reads, each possibly absent. -/
structure ReviewRequest where
  repository : Option String
  owner : Option String
  pull_request_number : Option Int
  branch : Option String
  pr_author : Option String
  pr_title : Option String
  pr_state : Option String
  pr_created_at : Option String
  commit_sha : Option String
deriving Repr, DecidableEq

/-- An exception escaping `handle_review_request`: the `KeyError`
raised by a subscript on a missing body key (surfaced by the resolver
as an unhandled internal error, not as a validation response). -/
inductive ApiExc where
  | keyError (key : String)
deriving Repr, DecidableEq

/-- The `{statusCode: 200, body: {execution_arn, status: started}}`
success payload of `handle_review_request` (lines 74-80 of
`src/lambda/api_handler.py`). -/
structure StartResponse where
  statusCode : Nat
  execution_arn : String
  status : String
deriving Repr, DecidableEq

/-- `api_handler.handle_review_request()` (lines 37-80 of
`src/lambda/api_handler.py`).  The `logger.info(..., extra={...})` call
at lines 41-52 subscripts all nine body keys, in source order, before
`sfn_client.start_execution` is reached, so a missing key — required or
optional — raises `KeyError` and no execution is started.  `arn` models
`response['executionArn']` of a successful `start_execution`. -/
def handle_review_request (arn : String) (req : ReviewRequest) :
    Except ApiExc StartResponse :=
  match req.repository with
  | none => .error (.keyError "repository")
  | some _ =>
  match req.pull_request_number with
  | none => .error (.keyError "pull_request_number")
  | some _ =>
  match req.owner with
  | none => .error (.keyError "owner")
  | some _ =>
  match req.branch with
  | none => .error (.keyError "branch")
  | some _ =>
  match req.pr_author with
  | none => .error (.keyError "pr_author")
  | some _ =>
  match req.pr_title with
  | none => .error (.keyError "pr_title")
  | some _ =>
  match req.pr_state with
  | none => .error (.keyError "pr_state")
  | some _ =>
  match req.pr_created_at with
  | none => .error (.keyError "pr_created_at")
  | some _ =>
  match req.commit_sha with
  | none => .error (.keyError "commit_sha")
  | some _ =>
  .ok { statusCode := 200, execution_arn := arn, status := "started" }

/-- All nine keys `handle_review_request` subscripts are present. -/
def allKeysPresent (req : ReviewRequest) : Bool :=
  req.repository.isSome && req.pull_request_number.isSome && req.owner.isSome &&
  req.branch.isSome && req.pr_author.isSome && req.pr_title.isSome &&
  req.pr_state.isSome && req.pr_created_at.isSome && req.commit_sha.isSome

end ApiHandler

/-! Concrete inputs used by witnesses and counterexamples. -/

/-- A change dict without patch content (a binary file). -/
def noPatchChange : Change :=
  { filename := some "image.png", status := some "added", patch := none }

/-- A change dict with patch content. -/
def patchedChange : Change :=
  { filename := some "src/main.py", status := some "modified",
    patch := some "@@ -1 +1 @@" }

/-- A Bedrock oracle whose payload has no `content` key. -/
def oracleNoContent : Nat → BedrockResult := fun _ => .payload none

/-- A Bedrock oracle returning one text part. -/
def oracleOk : Nat → BedrockResult :=
  fun _ => .payload (some [{ ptype := some "text", ptext := some "Looks good." }])

/-- A review dict as produced by a successful Bedrock review. -/
def goodReview : ReviewResult :=
  { file := some "a.py", review := some "Nice work.", error := none,
    status := some "succeeded", model := some BEDROCK_MODEL_ID }

/-- A posting oracle for `utils.post_review_comments` that always raises
`GithubException`. -/
def postFailU : Nat → Except Utils.UtilsExc Unit :=
  fun _ => .error (.githubException "403 Forbidden")

/-- A posting oracle for `handler.post_review_comments` that always
raises `GithubException`. -/
def postFailH : Nat → Except GhExc Unit :=
  fun _ => .error (.githubException "403 Forbidden")

/-- A provider oracle answering every `get_pull` with an empty file
list. -/
def pullEmptyOk : Int → Except GhExc (List PRFile) := fun _ => .ok []

/-! Helper lemmas. -/

/-- The loop of `utils.generate_review_with_bedrock` appends exactly one
review per change. -/
theorem Utils.genGo_length (oracle : Nat → BedrockResult) (k : Nat)
    (cs : List Change) : (Utils.genGo oracle k cs).length = cs.length := by
  induction cs generalizing k with
  | nil => rfl
  | cons c cs ih => simp [Utils.genGo, ih]

/-- Element `i` of the loop output of `utils.generate_review_with_bedrock`
is the processing of element `i` of the input, at counter `k + i`. -/
theorem Utils.genGo_get? (oracle : Nat → BedrockResult) (k : Nat)
    (cs : List Change) (i : Nat) (c : Change) (h : cs.get? i = some c) :
    (Utils.genGo oracle k cs).get? i =
      some (Utils.processChange (oracle (k + i)) (k + i) c).1 := by
  induction cs generalizing k i with
  | nil => simp at h
  | cons hd tl ih =>
    cases i with
    | zero =>
      simp only [List.get?_cons_zero, Option.some.injEq] at h
      subst h
      simp [Utils.genGo]
    | succ n =>
      simp only [List.get?_cons_succ] at h
      have := ih (k + 1) n h
      simpa [Utils.genGo, Nat.add_assoc, Nat.add_comm 1 n] using this

/-! Claim theorems. -/

/-- C1 (amended).  `utils.generate_review_with_bedrock` returns one
ReviewResult per input change, and returns an empty sequence (not an
error) on an empty input; for `handler.generate_review_with_bedrock`
only the empty-input half holds, since it drops changes without patch
content (see the counterexample). -/
theorem C1_review_generator_length :
    (∀ (oracle : Nat → BedrockResult) (changes : List Change),
      (Utils.generate_review_with_bedrock oracle changes).length = changes.length) ∧
    (∀ oracle : Nat → BedrockResult,
      Handler.generate_review_with_bedrock oracle
        (.dict (some (.list []))) = []) := by
  constructor
  · intro oracle changes
    exact Utils.genGo_length oracle 1 changes
  · intro oracle
    rfl

/-- C1 counterexample.  `handler.generate_review_with_bedrock` violates
length preservation: a one-element change list whose only change has no
patch yields an empty result list. -/
theorem C1_counterexample_handler_drops_unpatched :
    (Handler.generate_review_with_bedrock oracleNoContent
        (.dict (some (.list [noPatchChange])))).length ≠
      [noPatchChange].length := by
  decide

/-- C2 (amended).  For a change whose patch is absent or empty,
`utils.generate_review_with_bedrock` emits, at the same position, a
ReviewResult with status `skipped`, error `no patch content`, no review
text and no model, and does not invoke the inference capability for
that change; `handler.generate_review_with_bedrock` instead emits
nothing for such a change (see the counterexample), though it likewise
does not invoke inference. -/
theorem C2_skipped_on_missing_patch (oracle : Nat → BedrockResult)
    (changes : List Change) (i : Nat) (c : Change)
    (hmem : changes.get? i = some c)
    (hpatch : truthyOptStr c.patch = false) :
    (Utils.generate_review_with_bedrock oracle changes).get? i =
      some { file := some (c.filename.getD ("file_" ++ toString (1 + i))),
             review := none, error := some "no patch content",
             status := some "skipped", model := none } ∧
    (Utils.processChange (oracle (1 + i)) (1 + i) c).2 = false := by
  have h := Utils.genGo_get? oracle 1 changes i c hmem
  constructor
  · rw [Utils.generate_review_with_bedrock, h]
    simp [Utils.processChange, hpatch]
  · simp [Utils.processChange, hpatch]

/-- C2 witness: a binary-file change at position 0. -/
theorem C2_skipped_on_missing_patch_witness :
    (Utils.generate_review_with_bedrock oracleNoContent [noPatchChange]).get? 0 =
      some { file := some "image.png", review := none,
             error := some "no patch content",
             status := some "skipped", model := none } ∧
    (Utils.processChange (oracleNoContent 1) 1 noPatchChange).2 = false := by
  have h := C2_skipped_on_missing_patch oracleNoContent [noPatchChange] 0
    noPatchChange rfl rfl
  simpa [noPatchChange] using h

/-- C2 counterexample.  `handler.generate_review_with_bedrock` emits no
ReviewResult at all for a change without patch content, rather than a
skipped one. -/
theorem C2_counterexample_handler_emits_nothing :
    Handler.generate_review_with_bedrock oracleNoContent
        (.dict (some (.list [noPatchChange]))) = [] ∧
    noPatchChange.patch = none := by
  exact ⟨rfl, rfl⟩

/-- Every review dict built by one iteration of
`utils.generate_review_with_bedrock` satisfies the spec's ReviewResult
invariant. -/
theorem Utils.processChange_WF (br : BedrockResult) (idx : Nat) (c : Change) :
    WF (Utils.processChange br idx c).1 := by
  unfold Utils.processChange
  by_cases hp : truthyOptStr c.patch = false
  · simp only [hp, if_true]
    refine ⟨Or.inr (Or.inr rfl), ?_, ?_⟩ <;> simp
  · simp only [hp, if_false]
    cases br with
    | awsError m => refine ⟨Or.inr (Or.inl rfl), ?_, ?_⟩ <;> simp
    | jsonError m => refine ⟨Or.inr (Or.inl rfl), ?_, ?_⟩ <;> simp
    | otherError m => refine ⟨Or.inr (Or.inl rfl), ?_, ?_⟩ <;> simp
    | payload content =>
      by_cases ht : pyStrip (Utils.extractText (content.getD [])) = ""
      · simp only [ht, if_true]
        refine ⟨Or.inr (Or.inl rfl), ?_, ?_⟩ <;> simp
      · simp only [ht, if_false]
        refine ⟨Or.inl rfl, ?_, ?_⟩ <;> simp

/-- Every element of the loop output of
`utils.generate_review_with_bedrock` satisfies the ReviewResult
invariant. -/
theorem Utils.genGo_WF (oracle : Nat → BedrockResult) (k : Nat)
    (cs : List Change) : ∀ r ∈ Utils.genGo oracle k cs, WF r := by
  induction cs generalizing k with
  | nil => intro r hr; simp [Utils.genGo] at hr
  | cons c cs ih =>
    intro r hr
    simp only [Utils.genGo, List.mem_cons] at hr
    rcases hr with h | h
    · subst h; exact Utils.processChange_WF (oracle k) k c
    · exact ih (k + 1) r h

/-- C5 (amended).  Every ReviewResult produced by
`utils.generate_review_with_bedrock` has status in
`{succeeded, failed, skipped}`, review present iff status is
`succeeded`, and error present iff status is `failed` or `skipped`;
`handler.generate_review_with_bedrock` violates this invariant — its
successful entries carry the file-change status (default `reviewed`)
in the `status` field while `review` is populated (see the
counterexample). -/
theorem C5_utils_results_wellformed (oracle : Nat → BedrockResult)
    (changes : List Change) (r : ReviewResult)
    (h : r ∈ Utils.generate_review_with_bedrock oracle changes) : WF r :=
  Utils.genGo_WF oracle 1 changes r h

/-- The succeeded review dict `utils.generate_review_with_bedrock`
builds for `patchedChange` under `oracleOk`. -/
def succUtilsReview : ReviewResult :=
  { file := some "src/main.py", review := some "Looks good.", error := none,
    status := some "succeeded", model := some BEDROCK_MODEL_ID }

/-- C5 witness: the result for a patched file under a successful
Bedrock call. -/
theorem C5_utils_results_wellformed_witness : WF succUtilsReview :=
  C5_utils_results_wellformed oracleOk [patchedChange] succUtilsReview
    (by decide)

/-- The entry `handler.generate_review_with_bedrock` builds for
`patchedChange` under `oracleOk`: its `status` is the file-change
status `modified`, not `succeeded`. -/
def succHandlerReview : ReviewResult :=
  { file := some "src/main.py", review := some "Looks good.", error := none,
    status := some "modified", model := some BEDROCK_MODEL_ID }

/-- C5 counterexample.  A successful review from
`handler.generate_review_with_bedrock` carries the file-change status
`modified`, outside the `{succeeded, failed, skipped}` enum, with
`review` populated: the claimed invariant fails on it. -/
theorem C5_counterexample_handler_status :
    Handler.generate_review_with_bedrock oracleOk
        (.dict (some (.list [patchedChange]))) = [succHandlerReview] ∧
    ¬ WF succHandlerReview := by
  refine ⟨rfl, fun h => ?_⟩
  rcases h.1 with h1 | h1 | h1 <;>
    · simp only [succHandlerReview, Option.some.injEq] at h1
      exact absurd h1 (by decide)

/-- Modelled from the spec (claim C3): an entry considered for an
actual posting attempt — dict-shaped, status `succeeded`, non-empty
review text.  Compared below with the attempts the code makes. -/
def specAttempted : Handler.ReviewEntry → Bool
  | .dict r => decide (r.status = some "succeeded") && truthyOptStr r.review
  | .nonDict => false

/-- The posting loop of `handler.post_review_comments` increments
exactly one of the two counters per entry. -/
theorem Handler.postLoop_counts (post : Nat → Except GhExc Unit)
    (entries : List Handler.ReviewEntry) : ∀ i : Nat,
    (Handler.postLoop post i entries).1 +
      (Handler.postLoop post i entries).2.1 = entries.length := by
  induction entries with
  | nil => intro i; rfl
  | cons e rest ih =>
    intro i
    have h := ih (i + 1)
    rcases hrec : Handler.postLoop post (i + 1) rest with ⟨s, f, a⟩
    rw [hrec] at h
    simp only at h
    cases e with
    | nonDict => simp [Handler.postLoop, hrec]; omega
    | dict r =>
      by_cases he : r.error.isSome
      · simp [Handler.postLoop, hrec, he]; omega
      · by_cases hv : truthyOptStr r.review = false
        · simp [Handler.postLoop, hrec, he, hv]; omega
        · cases hp : post i with
          | ok u => simp [Handler.postLoop, hrec, he, hv, hp]; omega
          | error ex => simp [Handler.postLoop, hrec, he, hv, hp]; omega

/-- Under the spec's ReviewResult invariant, the entries the posting
loop of `handler.post_review_comments` attempts are exactly those with
status `succeeded` and a non-empty review, and only attempts can count
as successful. -/
theorem Handler.postLoop_attempts (post : Nat → Except GhExc Unit)
    (entries : List Handler.ReviewEntry)
    (h : ∀ r, Handler.ReviewEntry.dict r ∈ entries → WF r) : ∀ i : Nat,
    (Handler.postLoop post i entries).2.2.length =
        entries.countP specAttempted ∧
    (Handler.postLoop post i entries).1 ≤
        (Handler.postLoop post i entries).2.2.length := by
  induction entries with
  | nil => intro i; exact ⟨rfl, Nat.le_refl 0⟩
  | cons e rest ih =>
    intro i
    have hrest : ∀ r, Handler.ReviewEntry.dict r ∈ rest → WF r :=
      fun r hr => h r (List.mem_cons_of_mem e hr)
    have hih := ih hrest (i + 1)
    rcases hrec : Handler.postLoop post (i + 1) rest with ⟨s, f, a⟩
    rw [hrec] at hih
    simp only at hih
    cases e with
    | nonDict =>
      simp only [Handler.postLoop, hrec, List.countP_cons, specAttempted,
        Bool.false_eq_true, if_false]
      exact hih
    | dict r =>
      have hwf : WF r := h r (List.mem_cons_self _ _)
      by_cases he : r.error.isSome
      · -- an error key is present, so by WF the status is failed or
        -- skipped: not a spec-attempted entry
        have hst : r.status = some "failed" ∨ r.status = some "skipped" :=
          hwf.2.2.mp he
        have hns : specAttempted (.dict r) = false := by
          rcases hst with hst | hst <;> simp [specAttempted, hst]
        simp only [Handler.postLoop, hrec, he, if_true, List.countP_cons, hns,
          Bool.false_eq_true, if_false]
        exact hih
      · by_cases hv : truthyOptStr r.review = false
        · have hns : specAttempted (.dict r) = false := by
            simp [specAttempted, hv]
          simp only [Handler.postLoop, hrec, he, if_false, hv, if_true,
            List.countP_cons, hns, Bool.false_eq_true, if_false]
          exact hih
        · -- no error key and a truthy review: by WF the review is present,
          -- hence status is succeeded, and the code attempts the post
          have hrev : r.review.isSome := by
            cases hr : r.review with
            | none => rw [hr] at hv; simp [truthyOptStr] at hv
            | some v => rfl
          have hst : r.status = some "succeeded" := hwf.2.1.mp hrev
          have hs : specAttempted (.dict r) = true := by
            simp [specAttempted, hst]
            cases hb : truthyOptStr r.review
            · exact absurd hb hv
            · rfl
          cases hp : post i with
          | ok u =>
            simp [Handler.postLoop, hrec, he, hv, hp, List.countP_cons, hs]
            omega
          | error ex =>
            simp [Handler.postLoop, hrec, he, hv, hp, List.countP_cons, hs]
            omega

/-- When the posting loop of `utils.post_review_comments` returns a
tally (no posting call raised), it too increments exactly one counter
per entry. -/
theorem Utils.postLoop_ok_counts (post : Nat → Except Utils.UtilsExc Unit)
    (rs : List ReviewResult) : ∀ (i s f : Nat),
    Utils.postLoop post i rs = .ok (s, f) → s + f = rs.length := by
  induction rs with
  | nil =>
    intro i s f h
    simp only [Utils.postLoop, Except.ok.injEq, Prod.mk.injEq] at h
    simp only [List.length_nil]
    omega
  | cons r rest ih =>
    intro i s f h
    simp only [Utils.postLoop] at h
    by_cases hg : (r.error.isSome || !truthyOptStr r.review) = true
    · rw [if_pos hg] at h
      cases hrec : Utils.postLoop post (i + 1) rest with
      | error e => rw [hrec] at h; simp [Except.map] at h
      | ok p =>
        rw [hrec] at h
        simp only [Except.map, Except.ok.injEq, Prod.mk.injEq] at h
        have := ih (i + 1) p.1 p.2 (by rw [hrec])
        simp only [List.length_cons]
        omega
    · rw [if_neg hg] at h
      cases hp : post i with
      | error e => rw [hp] at h; simp at h
      | ok u =>
        rw [hp] at h
        cases hrec : Utils.postLoop post (i + 1) rest with
        | error e => rw [hrec] at h; simp [Except.map] at h
        | ok p =>
          rw [hrec] at h
          simp only [Except.map, Except.ok.injEq, Prod.mk.injEq] at h
          have := ih (i + 1) p.1 p.2 (by rw [hrec])
          simp only [List.length_cons]
          omega

/-- C3 (confirmed).  On every list of spec-conformant ReviewResult
entries on which the comment publisher returns a PostingOutcome,
`successful_posts + failed_posts` equals the length of the list; the
entries attempted as posts are exactly those with status `succeeded`
and non-empty review text (every other entry counts as failed, so the
successes are bounded by the attempts).  This holds for
`handler.post_review_comments` unconditionally and for the
`utils.post_review_comments` loop whenever it returns. -/
theorem C3_posting_outcome_tally (post : Nat → Except GhExc Unit)
    (entries : List Handler.ReviewEntry)
    (h : ∀ r, Handler.ReviewEntry.dict r ∈ entries → WF r) :
    (∀ outcome : Handler.PostOutcome,
      Handler.post_review_comments (.ok ()) post (.listD entries) =
          .ok outcome →
        outcome.successful_posts + outcome.failed_posts = entries.length) ∧
    ((Handler.postLoop post 0 entries).2.2.length =
        entries.countP specAttempted) ∧
    ((Handler.postLoop post 0 entries).1 ≤
        (Handler.postLoop post 0 entries).2.2.length) ∧
    (∀ (postU : Nat → Except Utils.UtilsExc Unit) (rs : List ReviewResult)
        (s f : Nat),
      Utils.postLoop postU 0 rs = .ok (s, f) → s + f = rs.length) := by
  refine ⟨?_, (Handler.postLoop_attempts post entries h 0).1,
    (Handler.postLoop_attempts post entries h 0).2,
    fun postU rs s f hp => Utils.postLoop_ok_counts postU rs 0 s f hp⟩
  intro outcome hout
  have htally := Handler.postLoop_counts post entries 0
  rcases hrec : Handler.postLoop post 0 entries with ⟨s, f, a⟩
  rw [hrec] at htally
  simp only at htally
  simp only [Handler.post_review_comments, Handler.parseReviews, hrec,
    Except.ok.injEq] at hout
  rw [← hout]
  exact htally

/-- C3 witness: one succeeded entry, one failed entry, one non-dict
entry, under a posting oracle that always succeeds. -/
theorem C3_posting_outcome_tally_witness :
    Handler.post_review_comments (.ok ()) (fun _ => .ok ())
        (.listD [.dict goodReview, .nonDict]) =
      .ok { successful_posts := 1, failed_posts := 1 } ∧
    (1 : Nat) + 1 = 2 := by
  have h := C3_posting_outcome_tally (fun _ => .ok ())
    [.dict goodReview, .nonDict]
    (by intro r hr; simp at hr; subst hr
        exact ⟨by decide, by decide, by decide⟩)
  exact ⟨by decide, h.1 { successful_posts := 1, failed_posts := 1 } (by decide)⟩

/-- C4 (amended).  In `handler.post_review_comments`, a provider error
while posting one comment increments `failed_posts` and processing
continues with the remaining reviews, and once the reviews payload has
been parsed and the pull request located the function always returns a
PostingOutcome — it never raises.  `utils.post_review_comments` has no
per-comment handler, so there a provider error while posting aborts
the batch and propagates (see the counterexample). -/
theorem C4_handler_post_recovers :
    (∀ (post : Nat → Except GhExc Unit) (rd : Handler.ReviewsData),
      (Handler.parseReviews rd).isOk = true →
        ∃ out : Handler.PostOutcome,
          Handler.post_review_comments (.ok ()) post rd = .ok out) ∧
    (∀ (post : Nat → Except GhExc Unit) (i : Nat) (r : ReviewResult)
        (rest : List Handler.ReviewEntry) (ex : GhExc),
      r.error = none → truthyOptStr r.review = true → post i = .error ex →
        Handler.postLoop post i (.dict r :: rest) =
          ((Handler.postLoop post (i + 1) rest).1,
           (Handler.postLoop post (i + 1) rest).2.1 + 1,
           i :: (Handler.postLoop post (i + 1) rest).2.2)) := by
  constructor
  · intro post rd hok
    cases hp : Handler.parseReviews rd with
    | error m => rw [hp] at hok; simp [Except.isOk, Except.toBool] at hok
    | ok reviews =>
      refine ⟨{ successful_posts := (Handler.postLoop post 0 reviews).1,
                failed_posts := (Handler.postLoop post 0 reviews).2.1 }, ?_⟩
      simp only [Handler.post_review_comments, hp]
  · intro post i r rest ex he hv hp
    rcases hrec : Handler.postLoop post (i + 1) rest with ⟨s, f, a⟩
    simp [Handler.postLoop, hrec, he, hv, hp]

/-- C4 witness: one well-formed review and a posting oracle that always
raises; the handler publisher still returns an outcome. -/
theorem C4_handler_post_recovers_witness :
    ∃ out : Handler.PostOutcome,
      Handler.post_review_comments (.ok ()) postFailH
          (.listD [.dict goodReview]) = .ok out :=
  C4_handler_post_recovers.1 postFailH (.listD [.dict goodReview]) rfl

/-- C4 counterexample.  In `utils.post_review_comments` a provider
error while posting the first comment propagates and aborts the batch
even though the pull request was located: the claim that
post_review_comments never raises once the PR is located fails on the
utils implementation. -/
theorem C4_counterexample_utils_abort :
    Utils.post_review_comments (.ok ()) postFailU
        (.strList [goodReview, goodReview]) =
      .error (.githubException "403 Forbidden") := by
  rfl

/-- A step event for `fetch_changes` with every required field. -/
def fetchEvent : Handler.Event :=
  { action := some "fetch_changes", repository := some "demo-repo",
    pull_request_number := some 42, owner := some "demo",
    changes := none, review := none }

/-- A step event for `fetch_changes` missing `repository`. -/
def fetchEventMissing : Handler.Event :=
  { action := some "fetch_changes", repository := none,
    pull_request_number := some 42, owner := some "demo",
    changes := none, review := none }

/-- A step event for `generate_review` whose `changes` value is an
empty (hence falsy) list. -/
def genEventEmpty : Handler.Event :=
  { action := some "generate_review", repository := none,
    pull_request_number := none, owner := none,
    changes := some (.list []), review := none }

/-- A step event for `post_comments` with every required field. -/
def postEvent : Handler.Event :=
  { action := some "post_comments", repository := some "demo-repo",
    pull_request_number := some 7, owner := some "demo",
    changes := none, review := some (.listD []) }

/-- Step oracles whose fetch raises `PRReviewError`, as a GitHub
failure does. -/
def oraclesFetchFail : Handler.StepOracles :=
  { fetch := .error (.prReviewError "GitHub API error fetching PR changes: 404"),
    gen := .ok [], post := .ok { successful_posts := 0, failed_posts := 0 } }

/-- Step oracles whose post step returns a non-trivial tally. -/
def oraclesPostTally : Handler.StepOracles :=
  { fetch := .ok [], gen := .ok [],
    post := .ok { successful_posts := 3, failed_posts := 2 } }

/-- Step oracles whose post step returns the zero tally. -/
def oraclesPostZero : Handler.StepOracles :=
  { fetch := .ok [], gen := .ok [],
    post := .ok { successful_posts := 0, failed_posts := 0 } }

/-- A step response carries 200 on success and 500 on either kind of
exception. -/
theorem Handler.stepResponse_codes {α : Type} (f : α → Handler.Body)
    (x : Except Handler.StepExc α) :
    (Handler.stepResponse f x).statusCode = 200 ∨
      (Handler.stepResponse f x).statusCode = 500 := by
  cases x with
  | ok v => exact Or.inl rfl
  | error ex => cases ex <;> exact Or.inr rfl

/-- `handler.lambda_handler` only ever returns statusCode 200, 400 or
500. -/
theorem Handler.lambda_handler_codes (o : Handler.StepOracles)
    (e : Handler.Event) :
    (Handler.lambda_handler o e).1.statusCode = 200 ∨
    (Handler.lambda_handler o e).1.statusCode = 400 ∨
    (Handler.lambda_handler o e).1.statusCode = 500 := by
  unfold Handler.lambda_handler
  cases e.action with
  | none => simp
  | some a =>
    by_cases h1 : a = ""
    · simp [h1]
    · by_cases h2 : a = "fetch_changes"
      · subst h2
        by_cases hreq : (e.repository.isSome && e.pull_request_number.isSome &&
            e.owner.isSome) = true
        · simp only [hreq, if_true, if_false]
          rcases Handler.stepResponse_codes Handler.Body.changes o.fetch with h | h
          · simp [h]
          · simp [h]
        · simp [hreq]
      · by_cases h3 : a = "generate_review"
        · subst h3
          cases hc : e.changes with
          | none => simp [h1, hc]
          | some cv =>
            by_cases hcv : Handler.truthyEventChanges cv = false
            · simp [h1, hc, hcv]
            · simp only [h1, hc, hcv, if_false, if_true]
              rcases Handler.stepResponse_codes Handler.Body.reviews o.gen with h | h
              · simp [h, hcv]
              · simp [h, hcv]
        · by_cases h4 : a = "post_comments"
          · subst h4
            by_cases hreq : (e.repository.isSome &&
                e.pull_request_number.isSome && e.owner.isSome &&
                e.review.isSome) = true
            · simp only [hreq, if_true, if_false]
              rcases Handler.stepResponse_codes
                (fun _ => Handler.Body.statusSuccess) o.post with h | h
              · simp [h, h1, h2, h3]
              · simp [h, h1, h2, h3]
            · simp [hreq, h1, h2, h3]
          · simp [h1, h2, h3, h4]

/-- C6 (amended).  For every step event: missing required fields for
the requested action yield statusCode 400; an upstream-provider
failure surfaces as `PRReviewError` and yields statusCode 500 with the
error message as body — not 502; an unexpected internal error also
yields statusCode 500 with body `Internal server error`; no response
ever carries statusCode 502. -/
theorem C6_step_handler_status_codes (o : Handler.StepOracles)
    (e : Handler.Event) :
    (e.action = some "fetch_changes" →
      (e.repository.isSome && e.pull_request_number.isSome &&
          e.owner.isSome) = false →
      (Handler.lambda_handler o e).1.statusCode = 400) ∧
    (e.action = some "post_comments" →
      (e.repository.isSome && e.pull_request_number.isSome &&
          e.owner.isSome && e.review.isSome) = false →
      (Handler.lambda_handler o e).1.statusCode = 400) ∧
    (∀ m : String, e.action = some "fetch_changes" →
      (e.repository.isSome && e.pull_request_number.isSome &&
          e.owner.isSome) = true →
      o.fetch = .error (.prReviewError m) →
      (Handler.lambda_handler o e).1 =
        { statusCode := 500, body := .errorMsg m }) ∧
    (e.action = some "fetch_changes" →
      (e.repository.isSome && e.pull_request_number.isSome &&
          e.owner.isSome) = true →
      o.fetch = .error .unexpected →
      (Handler.lambda_handler o e).1 =
        { statusCode := 500, body := .errorMsg "Internal server error" }) ∧
    ((Handler.lambda_handler o e).1.statusCode ≠ 502) := by
  refine ⟨?_, ?_, ?_, ?_, ?_⟩
  · intro ha hreq
    simp [Handler.lambda_handler, ha, hreq]
  · intro ha hreq
    simp [Handler.lambda_handler, ha, hreq]
  · intro m ha hreq hf
    simp [Handler.lambda_handler, ha, hreq, hf, Handler.stepResponse]
  · intro ha hreq hf
    simp [Handler.lambda_handler, ha, hreq, hf, Handler.stepResponse]
  · rcases Handler.lambda_handler_codes o e with h | h | h <;> omega

/-- C6 witness: a fetch event missing `repository` yields 400, and a
complete fetch event whose GitHub lookup raises `PRReviewError` yields
500. -/
theorem C6_step_handler_status_codes_witness :
    (Handler.lambda_handler oraclesFetchFail fetchEventMissing).1.statusCode
        = 400 ∧
    (Handler.lambda_handler oraclesFetchFail fetchEvent).1 =
      { statusCode := 500,
        body := .errorMsg "GitHub API error fetching PR changes: 404" } := by
  refine ⟨?_, ?_⟩
  · exact (C6_step_handler_status_codes oraclesFetchFail fetchEventMissing).1
      rfl rfl
  · exact (C6_step_handler_status_codes oraclesFetchFail fetchEvent).2.2.1
      "GitHub API error fetching PR changes: 404" rfl rfl rfl

/-- C6 counterexample.  An upstream-provider failure (the fetch step
raising `PRReviewError`) yields statusCode 500, not the claimed 502. -/
theorem C6_counterexample_no_502 :
    (Handler.lambda_handler oraclesFetchFail fetchEvent).1.statusCode = 500 ∧
    (Handler.lambda_handler oraclesFetchFail fetchEvent).1.statusCode ≠ 502 := by
  decide

/-- C9 (amended).  For every successful `post_comments` step
invocation, the response is statusCode 200 with the constant body
`status: success`, whatever PostingOutcome the comment publisher
returned: the tally is discarded by the step handler. -/
theorem C9_post_step_discards_tally (o : Handler.StepOracles)
    (e : Handler.Event) (out : Handler.PostOutcome)
    (ha : e.action = some "post_comments")
    (hreq : (e.repository.isSome && e.pull_request_number.isSome &&
        e.owner.isSome && e.review.isSome) = true)
    (hp : o.post = .ok out) :
    (Handler.lambda_handler o e).1 =
      { statusCode := 200, body := .statusSuccess } := by
  simp [Handler.lambda_handler, ha, hreq, hp, Handler.stepResponse]

/-- C9 witness: a successful post step with a 3/2 tally still answers
with the constant success body. -/
theorem C9_post_step_discards_tally_witness :
    (Handler.lambda_handler oraclesPostTally postEvent).1 =
      { statusCode := 200, body := .statusSuccess } :=
  C9_post_step_discards_tally oraclesPostTally postEvent
    { successful_posts := 3, failed_posts := 2 } rfl rfl rfl

/-- C9 counterexample.  Two post steps whose publishers return
different PostingOutcome tallies produce identical responses with the
constant body `status: success`: the response body cannot carry the
tally, refuting the claim that it does. -/
theorem C9_counterexample_body_constant :
    (Handler.lambda_handler oraclesPostTally postEvent).1.body =
        Handler.Body.statusSuccess ∧
    Handler.lambda_handler oraclesPostTally postEvent =
        Handler.lambda_handler oraclesPostZero postEvent ∧
    oraclesPostTally.post ≠ oraclesPostZero.post := by
  refine ⟨rfl, rfl, by decide⟩

/-- C10 (confirmed).  A `generate_review` step event whose `changes`
field is absent, or present but falsy (empty string, empty list, empty
dict), yields statusCode 400 and no step function is invoked, so an
empty change list never reaches the review generator through the step
interface. -/
theorem C10_empty_changes_rejected (o : Handler.StepOracles)
    (e : Handler.Event) (ha : e.action = some "generate_review")
    (hc : e.changes = none ∨
      ∃ cv, e.changes = some cv ∧ Handler.truthyEventChanges cv = false) :
    (Handler.lambda_handler o e).1.statusCode = 400 ∧
    (Handler.lambda_handler o e).2 = none := by
  rcases hc with hc | ⟨cv, hc, hcv⟩
  · constructor <;> simp [Handler.lambda_handler, ha, hc]
  · constructor <;> simp [Handler.lambda_handler, ha, hc, hcv]

/-- C10 witness: an empty change list is falsy and is rejected with
400 before any step function runs. -/
theorem C10_empty_changes_rejected_witness :
    (Handler.lambda_handler oraclesPostZero genEventEmpty).1.statusCode = 400 ∧
    (Handler.lambda_handler oraclesPostZero genEventEmpty).2 = none :=
  C10_empty_changes_rejected oraclesPostZero genEventEmpty rfl
    (Or.inr ⟨.list [], rfl, rfl⟩)

/-- A review request carrying only the three required fields. -/
def reqOnlyRequired : ApiHandler.ReviewRequest :=
  { repository := some "demo-repo", owner := some "demo",
    pull_request_number := some 42, branch := none, pr_author := none,
    pr_title := none, pr_state := none, pr_created_at := none,
    commit_sha := none }

/-- A review request carrying all nine fields. -/
def reqComplete : ApiHandler.ReviewRequest :=
  { repository := some "demo-repo", owner := some "demo",
    pull_request_number := some 42, branch := some "main",
    pr_author := some "dev", pr_title := some "Fix bug",
    pr_state := some "open", pr_created_at := some "2024-01-01",
    commit_sha := some "abc123" }

/-- C7 (amended).  `handle_review_request` subscripts all nine body
fields before any execution is started: a request with every field
present starts an execution and answers 200/started, a request missing
`repository` raises `KeyError repository`, and a request with the
three required fields but no `branch` raises `KeyError branch` — an
unhandled internal error, not a validation-failure response, and in
either error case no execution is created. -/
theorem C7_start_review_requires_all_fields (arn : String)
    (req : ApiHandler.ReviewRequest) :
    (ApiHandler.allKeysPresent req = true →
      ApiHandler.handle_review_request arn req =
        .ok { statusCode := 200, execution_arn := arn, status := "started" }) ∧
    (req.repository = none →
      ApiHandler.handle_review_request arn req =
        .error (.keyError "repository")) ∧
    (req.repository.isSome = true → req.pull_request_number.isSome = true →
      req.owner.isSome = true → req.branch = none →
      ApiHandler.handle_review_request arn req =
        .error (.keyError "branch")) := by
  refine ⟨?_, ?_, ?_⟩
  · intro hall
    simp only [ApiHandler.allKeysPresent, Bool.and_eq_true] at hall
    obtain ⟨⟨⟨⟨⟨⟨⟨⟨h1, h2⟩, h3⟩, h4⟩, h5⟩, h6⟩, h7⟩, h8⟩, h9⟩ := hall
    rw [Option.isSome_iff_exists] at h1 h2 h3 h4 h5 h6 h7 h8 h9
    obtain ⟨v1, h1⟩ := h1; obtain ⟨v2, h2⟩ := h2; obtain ⟨v3, h3⟩ := h3
    obtain ⟨v4, h4⟩ := h4; obtain ⟨v5, h5⟩ := h5; obtain ⟨v6, h6⟩ := h6
    obtain ⟨v7, h7⟩ := h7; obtain ⟨v8, h8⟩ := h8; obtain ⟨v9, h9⟩ := h9
    simp [ApiHandler.handle_review_request, h1, h2, h3, h4, h5, h6, h7, h8, h9]
  · intro h
    simp [ApiHandler.handle_review_request, h]
  · intro h1 h2 h3 h4
    rw [Option.isSome_iff_exists] at h1 h2 h3
    obtain ⟨v1, h1⟩ := h1; obtain ⟨v2, h2⟩ := h2; obtain ⟨v3, h3⟩ := h3
    simp [ApiHandler.handle_review_request, h1, h2, h3, h4]

/-- C7 witness: a complete request starts an execution; one missing
only the optional fields fails on `branch`. -/
theorem C7_start_review_requires_all_fields_witness :
    ApiHandler.handle_review_request "arn-demo" reqComplete =
      .ok { statusCode := 200, execution_arn := "arn-demo",
            status := "started" } ∧
    ApiHandler.handle_review_request "arn-demo" reqOnlyRequired =
      .error (.keyError "branch") := by
  refine ⟨?_, ?_⟩
  · exact (C7_start_review_requires_all_fields "arn-demo" reqComplete).1 rfl
  · exact (C7_start_review_requires_all_fields "arn-demo"
      reqOnlyRequired).2.2 rfl rfl rfl rfl

/-- C7 counterexample.  A request with the three required fields
present but the optional fields absent does not start an execution:
the unconditional subscript of `branch` raises `KeyError`, refuting
the claim that such a request succeeds. -/
theorem C7_counterexample_optional_fields_required :
    ApiHandler.handle_review_request "arn-demo" reqOnlyRequired =
      .error (.keyError "branch") := by
  rfl

/-- C8 (amended).  `handler.fetch_pr_changes` raises `PRReviewError`
(the upstream-failure path) when the provider rejects the lookup,
whether at `get_repo` or at `get_pull`; it performs no validation of
`pr_number` — there is no positive-integer check, and any value,
including non-positive ones, is forwarded to the provider, a successful
provider response yielding a normal result (see the counterexample). -/
theorem C8_fetch_error_paths (getPull : Int → Except GhExc (List PRFile))
    (r o m : String) (pr : Int) :
    (Handler.fetch_pr_changes (.error (.githubException m)) getPull r pr o =
      .error ("GitHub API error fetching PR changes: " ++ m)) ∧
    (Handler.fetch_pr_changes (.ok ()) (fun _ => .error (.githubException m))
        r pr o =
      .error ("GitHub API error fetching PR changes: " ++ m)) ∧
    (∀ files : List PRFile,
      Handler.fetch_pr_changes (.ok ()) (fun _ => .ok files) r pr o =
        .ok (files.map Handler.mkChangeData)) := by
  refine ⟨rfl, rfl, fun files => rfl⟩

/-- C8 counterexample.  With `pr_number = 0`, which is not a positive
integer, `handler.fetch_pr_changes` raises no validation error: it
forwards the value to the provider and returns the provider result. -/
theorem C8_counterexample_no_validation :
    Handler.fetch_pr_changes (.ok ()) pullEmptyOk "demo-repo" 0 "demo" =
      .ok [] := by
  rfl

end GithubAICoder
